import Mathlib

/-!
# Verification of the DeOrganized API backend

A shallow embedding, in Lean 4, of the core logic of the DeOrganized
social-platform backend (Django): the recurrence evaluator on `Show`
(`shows/models.py`), the notification fan-out signal handlers
(`users/signals.py`), the Like/Follow toggle endpoints and the wallet
setup endpoint (`users/views.py`), the `Follow.save` guard
(`users/models.py`), and the guest-request accept workflow
(`shows/views.py`).

Machine dates are modelled with the proleptic Gregorian calendar exactly
as Python's `datetime.date` computes them (`weekday()` with Monday = 0,
`isoformat()` as `YYYY-MM-DD`).  Database tables are modelled as lists
of rows; handlers are pure functions from a state to a new state plus an
HTTP status code; signal side effects are the `Option Notification`
they produce.
-/

namespace DeOrganized

/-! ## Calendar dates (Python `datetime.date`) -/

/-- A calendar date, as Python's `datetime.date(year, month, day)`. -/
structure Date where
  year : Nat
  month : Nat
  day : Nat
deriving DecidableEq, Repr

/-- Gregorian leap-year test, as `calendar.isleap` / `datetime._is_leap`. -/
def isLeap (y : Nat) : Bool :=
  (y % 4 == 0 && y % 100 != 0) || y % 400 == 0

/-- Days in a month, as `datetime._days_in_month`. -/
def daysInMonth (y m : Nat) : Nat :=
  if m = 2 then (if isLeap y then 29 else 28)
  else if m = 4 ∨ m = 6 ∨ m = 9 ∨ m = 11 then 30
  else 31

/-- Days in the years strictly before year `y`
(`datetime._days_before_year`). -/
def daysBeforeYear (y : Nat) : Nat :=
  (y - 1) * 365 + (y - 1) / 4 - (y - 1) / 100 + (y - 1) / 400

/-- Days in the months of year `y` strictly before month `m`
(`datetime._days_before_month`). -/
def daysBeforeMonth (y m : Nat) : Nat :=
  (List.range m).foldl (fun acc k => if 1 ≤ k ∧ k < m then acc + daysInMonth y k else acc) 0

/-- Proleptic-Gregorian ordinal of a date, with `0001-01-01` having
ordinal 1 (`datetime.date.toordinal`). -/
def Date.toordinal (d : Date) : Nat :=
  daysBeforeYear d.year + daysBeforeMonth d.year d.month + d.day

/-- Day of the week, Monday = 0 .. Sunday = 6
(`datetime.date.weekday`). -/
def Date.weekday (d : Date) : Nat :=
  (d.toordinal + 6) % 7

/-- Zero-pad a numeral to two digits. -/
def pad2 (n : Nat) : String :=
  if n < 10 then "0" ++ toString n else toString n

/-- Zero-pad a numeral to four digits. -/
def pad4 (n : Nat) : String :=
  if n < 10 then "000" ++ toString n
  else if n < 100 then "00" ++ toString n
  else if n < 1000 then "0" ++ toString n
  else toString n

/-- ISO 8601 rendering `YYYY-MM-DD` (`datetime.date.isoformat`). -/
def Date.isoformat (d : Date) : String :=
  pad4 d.year ++ "-" ++ pad2 d.month ++ "-" ++ pad2 d.day

/-! ## The Show model and its recurrence evaluator (`shows/models.py`)

Only the fields read by `should_air_on_date` are carried.
`recurrence_type` is a nullable `CharField`, hence `Option String`;
`day_of_week` is a nullable `IntegerField`, hence `Option Int`. -/

/-- The recurrence-relevant fields of `shows.models.Show`. -/
structure Show where
  is_recurring : Bool
  recurrence_type : Option String
  day_of_week : Option Int
  cancelled_instances : List String
deriving DecidableEq, Repr

/-- Embeds `Show.should_air_on_date` from `shows/models.py` lines 173–192,
branch for branch: non-recurring shows never air; a date whose ISO
string is in `cancelled_instances` never airs; otherwise dispatch on
`recurrence_type`, and any unrecognised or missing value yields
`False`.  Python's `date.weekday() == self.day_of_week` is `False`
when `day_of_week` is `None`. -/
def Show.should_air_on_date (s : Show) (date : Date) : Bool :=
  if !s.is_recurring then false
  else if date.isoformat ∈ s.cancelled_instances then false
  else if s.recurrence_type = some "DAILY" then true
  else if s.recurrence_type = some "WEEKDAYS" then decide (date.weekday < 5)
  else if s.recurrence_type = some "WEEKENDS" then decide (date.weekday ≥ 5)
  else if s.recurrence_type = some "SPECIFIC_DAY" then
    match s.day_of_week with
    | some k => decide ((date.weekday : Int) = k)
    | none => false
  else false

/-! ## Users, engagement rows and notifications (`users/models.py`)

Users are identified by their primary-key id (a `Nat`); a polymorphic
target is a `(content_type, object_id)` pair of ids. -/

/-- The attributes `get_content_owner` probes on a target object; each
is the owning user's id when the attribute exists and is not `None`. -/
structure ContentObject where
  creator : Option Nat
  author : Option Nat
  organizer : Option Nat
deriving DecidableEq, Repr

/-- Embeds `get_content_owner` from `users/signals.py` lines 10–22: the first
non-`None` of `creator`, `author`, `organizer`, else `None`. -/
def get_content_owner (c : ContentObject) : Option Nat :=
  match c.creator with
  | some u => some u
  | none =>
    match c.author with
    | some u => some u
    | none => c.organizer

/-- A `users.models.Like` row: `(user, content_type, object_id)`. -/
structure Like where
  user : Nat
  content_type : Nat
  object_id : Nat
deriving DecidableEq, Repr

/-- A `users.models.Comment` row, with its nullable parent comment. -/
structure Comment where
  user : Nat
  content_type : Nat
  object_id : Nat
  text : String
  parent : Option Nat
deriving DecidableEq, Repr

/-- A `users.models.Notification` row; the generic target reference is
nullable. -/
structure Notification where
  recipient : Nat
  actor : Nat
  notification_type : String
  content_type : Option Nat
  object_id : Option Nat
deriving DecidableEq, Repr

/-! ## Notification fan-out (`users/signals.py`)

Each `post_save` receiver is a pure function returning the
`Notification` it writes, if any.  The `content_object` resolved by the
generic foreign key is passed alongside the saved row. -/

/-- Embeds `create_like_notification` from `users/signals.py` lines 25–52:
nothing unless the save created the row; nothing when the target has no
owner or the liker is the owner; else one `like` notification carrying
the like's target reference. -/
def create_like_notification (created : Bool) (l : Like)
    (content_object : ContentObject) : Option Notification :=
  if !created then none
  else
    match get_content_owner content_object with
    | none => none
    | some owner =>
      if l.user = owner then none
      else some ⟨owner, l.user, "like", some l.content_type, some l.object_id⟩

/-- Embeds `create_comment_notification` from `users/signals.py` lines 55–87:
as for likes, and additionally nothing when the comment has a parent
(replies never notify). -/
def create_comment_notification (created : Bool) (c : Comment)
    (content_object : ContentObject) : Option Notification :=
  if !created then none
  else
    match get_content_owner content_object with
    | none => none
    | some owner =>
      if c.user = owner then none
      else if c.parent.isSome then none
      else some ⟨owner, c.user, "comment", some c.content_type, some c.object_id⟩

/-! ## The Like toggle endpoint (`users/views.py` lines 559–587) -/

/-- The lookup predicate of
`Like.objects.get_or_create(user=.., content_type_id=.., object_id=..)`. -/
def likeMatches (u ct oid : Nat) (l : Like) : Bool :=
  l.user == u && l.content_type == ct && l.object_id == oid

/-- Embeds `LikeViewSet.toggle`: a falsy `content_type` or `object_id` is a 400
that leaves the store alone; otherwise `get_or_create` — when the row
already existed it is deleted (`"unliked"`), when not a fresh row is
inserted (`"liked"`).  The store is the list of like rows. -/
def toggle_like (likes : List Like) (u ct oid : Nat) :
    List Like × String :=
  if ct = 0 ∨ oid = 0 then (likes, "error")
  else
    bif likes.any (likeMatches u ct oid) then
      (likes.eraseP (likeMatches u ct oid), "unliked")
    else
      (likes ++ [⟨u, ct, oid⟩], "liked")

/-! ## Follows (`users/models.py` lines 174–205, `users/views.py`) -/

/-- A `users.models.Follow` row: `(follower, following)` user ids. -/
structure Follow where
  follower : Nat
  following : Nat
deriving DecidableEq, Repr

/-- Embeds `Follow.save` from `users/models.py` lines 201–205: raises
`ValueError` on a self-follow, otherwise stores the row. -/
def Follow.save (rows : List Follow) (f : Follow) :
    Except String (List Follow) :=
  if f.follower = f.following then .error "Users cannot follow themselves"
  else .ok (rows ++ [f])

/-- The lookup predicate of
`Follow.objects.get_or_create(follower=.., following_id=..)`. -/
def followMatches (u v : Nat) (r : Follow) : Bool :=
  r.follower == u && r.following == v

/-- Embeds `FollowViewSet.toggle` from `users/views.py` lines 671–707: a falsy
`following_id` is a 400; a self-follow id is a 400 (`Cannot follow
yourself`); otherwise `get_or_create` (whose create path runs
`Follow.save`) — an existing row is deleted, a missing one is created.
The follow notification it also writes is irrelevant to the Follow
store and not carried here. -/
def toggle_follow (rows : List Follow) (userId followingId : Nat) :
    List Follow × String :=
  if followingId = 0 then (rows, "error")
  else if followingId = userId then (rows, "error")
  else
    bif rows.any (followMatches userId followingId) then
      (rows.eraseP (followMatches userId followingId), "unfollowed")
    else
      match Follow.save rows (Follow.mk userId followingId) with
      | .ok rows' => (rows', "followed")
      | .error _ => (rows, "error")

/-- The operations of the API surface that write the Follow table:
direct create (`perform_create` saving with `follower = request.user`,
which runs `Follow.save`), the toggle action, and row deletion. -/
inductive FollowOp where
  | create (follower following : Nat)
  | toggle (userId followingId : Nat)
  | remove (f : Follow)
deriving DecidableEq, Repr

/-- One API operation against the Follow store; a raised `ValueError`
reaches the client before anything is stored, so the store is
unchanged. -/
def applyFollowOp (rows : List Follow) : FollowOp → List Follow
  | .create f g =>
    match Follow.save rows (Follow.mk f g) with
    | .ok rows' => rows'
    | .error _ => rows
  | .toggle u v => (toggle_follow rows u v).1
  | .remove f => rows.eraseP (fun r => r == f)

/-- The Follow store reached from an empty table by a sequence of API
operations. -/
def runFollowOps (ops : List FollowOp) : List Follow :=
  ops.foldl applyFollowOp []

/-- Whether some persisted Follow row is a self-follow. -/
def hasSelfFollow (rows : List Follow) : Bool :=
  rows.any (fun r => r.follower == r.following)

/-! ## Wallet setup (`users/views.py` `UserViewSet.complete_setup`,
`users/serializers.py` `CompleteSetupSerializer`)

Python string primitives are modelled on the character list:
`str.startswith` and slicing `[:n]`. -/

/-- Python `s.startswith(pre)`. -/
def pyStartswith (s pre : String) : Bool :=
  pre.toList.isPrefixOf s.toList

/-- Python `s[:n]`. -/
def pySlice (s : String) (n : Nat) : String :=
  ⟨s.toList.take n⟩

/-- The stored columns of a `users.models.User` row that
`complete_setup` reads or writes: `username` (unique) and the unique
nullable `stacks_address`. -/
structure UserRow where
  username : String
  stacks_address : Option String
deriving DecidableEq, Repr

/-- The regex check of `validate_username`, ASCII letters, digits, underscore, hyphen, length 3 to 150 of `validate_username`. -/
def usernameFormatOk (u : String) : Bool :=
  3 ≤ u.length && u.length ≤ 150 &&
    u.toList.all (fun ch => ch.isAlphanum || ch == '_' || ch == '-')

/-- The username-generation loop of `complete_setup` (lines 309–325):
try `user_<wallet[:8]>`, then `user_<wallet[:8]>_1` … `_8`; note the
Python `while`/`else` overwrites the `_9` candidate with the UUID
fallback `user_<uuid4().hex[:8]>` before it is ever checked. -/
def genUsername (users : List UserRow) (wallet uuidHex : String) : String :=
  let base := "user_" ++ pySlice wallet 8
  let taken := fun n => users.any (fun u => u.username == n)
  match (base :: (List.range' 1 8).map (fun k => base ++ "_" ++ toString k)).find?
      (fun n => !taken n) with
  | some n => n
  | none => "user_" ++ pySlice uuidHex 8

/-- Embeds `UserViewSet.complete_setup` (`users/views.py` lines 257–371) acting
on the user store: serializer validation (wallet required, `SP`/`ST`
prefix, wallet not yet registered, provided username free and
well-formed), the view-level duplicate-wallet re-check, username
generation, then the guarded create — an `IntegrityError` on a taken
username rolls back to a 400.  Returns the new store and the HTTP
status. -/
def complete_setup (users : List UserRow) (wallet : String)
    (username : Option String) (uuidHex : String) : List UserRow × Nat :=
  if wallet = "" then (users, 400)
  else if !(pyStartswith wallet "SP" || pyStartswith wallet "ST") then (users, 400)
  else if users.any (fun u => u.stacks_address == some wallet) then (users, 400)
  else if (match username with
           | some n => !(n == "") &&
               (users.any (fun u => u.username == n) || !usernameFormatOk n)
           | none => false) then (users, 400)
  else if users.any (fun u => u.stacks_address == some wallet) then (users, 400)
  else
    let uname := match username with
      | some n => if n = "" then genUsername users wallet uuidHex else n
      | none => genUsername users wallet uuidHex
    if users.any (fun u => u.username == uname) then (users, 400)
    else (users ++ [⟨uname, some wallet⟩], 201)

/-! ## Guest requests (`shows/views.py` `GuestRequestViewSet.accept`) -/

/-- Modelled from the spec: the `GuestRequest` model class is not among
the provided sources (only its serializers and viewset are); §3 gives
`(show, requester, status ∈ {pending, accepted, declined})`.  The row
carries its primary key. -/
structure GuestRequest where
  id : Nat
  showId : Nat
  requester : Nat
  status : String
deriving DecidableEq, Repr

/-- Modelled from the spec: the `guests` many-to-many list on `Show` is
not in the provided `shows/models.py` (its serializers expose it); per
§4.4 acceptance adds the requester to the show's guest list.  Only the
fields `accept` touches are carried; many-to-many `add` is idempotent. -/
structure ShowGuests where
  showId : Nat
  creator : Nat
  guests : List Nat
deriving DecidableEq, Repr

/-- The stores touched by the guest-request workflow. -/
structure GuestState where
  shows : List ShowGuests
  requests : List GuestRequest
  notifications : List Notification
deriving DecidableEq, Repr

/-- Embeds `GuestRequestViewSet.accept` (`shows/views.py` lines 396–430):
404 when the request (or its show row) is missing, 403 unless the
show's creator is the caller; otherwise set the status to `accepted`,
add the requester to the show's guests, and write one `guest_accepted`
notification to the requester (the code stores `content_type_id =
guest_request.pk` and `object_id = show.id`). -/
def accept_guest_request (st : GuestState) (pk userId : Nat) :
    GuestState × Nat :=
  match st.requests.find? (fun r => r.id == pk) with
  | none => (st, 404)
  | some req =>
    match st.shows.find? (fun s => s.showId == req.showId) with
    | none => (st, 404)
    | some sh =>
      if sh.creator ≠ userId then (st, 403)
      else
        ({ shows := st.shows.map (fun s =>
              if s.showId == sh.showId then
                { s with guests :=
                    if req.requester ∈ s.guests then s.guests
                    else s.guests ++ [req.requester] }
              else s),
           requests := st.requests.map (fun r =>
              if r.id == pk then { r with status := "accepted" } else r),
           notifications := st.notifications ++
              [⟨req.requester, userId, "guest_accepted",
                 some req.id, some req.showId⟩] }, 200)

/-! ### Sample shows and dates used by witnesses and counterexamples -/

/-- 2025-10-11, a Saturday (`weekday = 5`). -/
def demoSaturday : Date := ⟨2025, 10, 11⟩

/-- 2025-10-08, a Wednesday (`weekday = 2`). -/
def demoWednesday : Date := ⟨2025, 10, 8⟩

/-- A recurring daily show whose 2025-10-11 instance is cancelled. -/
def demoCancelledShow : Show := ⟨true, some "DAILY", none, ["2025-10-11"]⟩

/-- A recurring weekends-only show with no cancellations. -/
def demoWeekendShow : Show := ⟨true, some "WEEKENDS", none, []⟩

/-- A show marked `DAILY` but with `is_recurring = false`. -/
def demoDormantDaily : Show := ⟨false, some "DAILY", none, []⟩

/-- A show marked `WEEKENDS` but with `is_recurring = false`. -/
def demoDormantWeekend : Show := ⟨false, some "WEEKENDS", none, []⟩

/-- A target owned by user 7 through its `creator` attribute. -/
def demoOwnedObj : ContentObject := ⟨some 7, none, none⟩

/-- A reply (parent set) by user 3 on target `(1, 9)`. -/
def demoReply : Comment := ⟨3, 1, 9, "nice", some 4⟩

/-- A top-level comment by user 3 on target `(1, 9)`. -/
def demoTopComment : Comment := ⟨3, 1, 9, "nice", none⟩

/-- A like by user 3 of target `(1, 9)`. -/
def demoLike : Like := ⟨3, 1, 9⟩

/-- A guest-request store: show 10 owned by user 7, a pending request 5
by user 3, no notifications. -/
def demoGuestState : GuestState :=
  ⟨[⟨10, 7, []⟩], [⟨5, 10, 3, "pending"⟩], []⟩

/-- The pending request of `demoGuestState`. -/
def demoGuestReq : GuestRequest := ⟨5, 10, 3, "pending"⟩

/-- The show row of `demoGuestState`. -/
def demoGuestShow : ShowGuests := ⟨10, 7, []⟩

/-! ## Theorems: the recurrence evaluator -/

/-- C1: for every show and every date whose ISO string appears in the
show's `cancelled_instances`, `should_air_on_date` returns false,
whatever the `recurrence_type` (non-recurring shows return false even
before the cancellation check). -/
theorem cancelled_date_never_airs (s : Show) (d : Date)
    (h : d.isoformat ∈ s.cancelled_instances) :
    s.should_air_on_date d = false := by
  unfold Show.should_air_on_date
  cases hr : s.is_recurring <;> simp [h]

/-- C1 witness: the cancelled 2025-10-11 instance of the daily show
does not air. -/
theorem cancelled_date_never_airs_witness :
    demoSaturday.isoformat ∈ demoCancelledShow.cancelled_instances ∧
    demoCancelledShow.should_air_on_date demoSaturday = false :=
  ⟨by decide, cancelled_date_never_airs demoCancelledShow demoSaturday (by decide)⟩

/-- C2 counterexample: a show with `recurrence_type = DAILY` but
`is_recurring = false` and an uncancelled date: the claim (which
quantifies over every show) would require `should_air_on_date` to
return true for `DAILY`, yet the code returns false because the
`is_recurring` guard fires first. -/
theorem recurrence_dispatch_counterexample :
    demoDormantDaily.recurrence_type = some "DAILY" ∧
    demoSaturday.isoformat ∉ demoDormantDaily.cancelled_instances ∧
    demoDormantDaily.should_air_on_date demoSaturday = false := by
  refine ⟨rfl, by decide, by decide⟩

/-- C2 (amended with `is_recurring = true`): for every *recurring* show
and every date not cancelled, `should_air_on_date` dispatches on
`recurrence_type`: true for `DAILY`; true iff `weekday < 5` for
`WEEKDAYS`; true iff `weekday ≥ 5` for `WEEKENDS`; true iff the weekday
equals `day_of_week` for `SPECIFIC_DAY`. -/
theorem recurrence_dispatch (s : Show) (d : Date)
    (hrec : s.is_recurring = true)
    (hc : d.isoformat ∉ s.cancelled_instances) :
    (s.recurrence_type = some "DAILY" → s.should_air_on_date d = true) ∧
    (s.recurrence_type = some "WEEKDAYS" →
        (s.should_air_on_date d = true ↔ d.weekday < 5)) ∧
    (s.recurrence_type = some "WEEKENDS" →
        (s.should_air_on_date d = true ↔ 5 ≤ d.weekday)) ∧
    (s.recurrence_type = some "SPECIFIC_DAY" →
        (s.should_air_on_date d = true ↔ s.day_of_week = some (d.weekday : Int))) := by
  refine ⟨fun ht => ?_, fun ht => ?_, fun ht => ?_, fun ht => ?_⟩ <;>
    simp [Show.should_air_on_date, hrec, hc, ht]
  cases hd : s.day_of_week <;> simp [hd, eq_comm]

/-- C2 witness: the amended dispatch at the recurring weekend show on
2025-10-11 (a Saturday, not cancelled). -/
theorem recurrence_dispatch_witness :
    demoWeekendShow.is_recurring = true ∧
    demoSaturday.isoformat ∉ demoWeekendShow.cancelled_instances ∧
    ((demoWeekendShow.recurrence_type = some "DAILY" →
        demoWeekendShow.should_air_on_date demoSaturday = true) ∧
     (demoWeekendShow.recurrence_type = some "WEEKDAYS" →
        (demoWeekendShow.should_air_on_date demoSaturday = true ↔ demoSaturday.weekday < 5)) ∧
     (demoWeekendShow.recurrence_type = some "WEEKENDS" →
        (demoWeekendShow.should_air_on_date demoSaturday = true ↔ 5 ≤ demoSaturday.weekday)) ∧
     (demoWeekendShow.recurrence_type = some "SPECIFIC_DAY" →
        (demoWeekendShow.should_air_on_date demoSaturday = true ↔
          demoWeekendShow.day_of_week = some (demoSaturday.weekday : Int)))) :=
  ⟨rfl, by decide, recurrence_dispatch demoWeekendShow demoSaturday rfl (by decide)⟩

/-- C3 counterexample: a show with `recurrence_type = WEEKENDS`, empty
`cancelled_instances` but `is_recurring = false` returns false on the
Saturday 2025-10-11, against the claim's required true. -/
theorem weekend_example_counterexample :
    demoDormantWeekend.recurrence_type = some "WEEKENDS" ∧
    demoDormantWeekend.cancelled_instances = [] ∧
    demoSaturday.weekday = 5 ∧
    demoDormantWeekend.should_air_on_date demoSaturday = false := by
  refine ⟨rfl, rfl, by decide, by decide⟩

/-- C3 (amended with `is_recurring = true`): a *recurring* `WEEKENDS`
show with no cancellations airs on any Saturday (`weekday = 5`) and not
on any Wednesday (`weekday = 2`). -/
theorem weekend_show_airs_saturday_not_wednesday (s : Show) (dSat dWed : Date)
    (hrec : s.is_recurring = true)
    (ht : s.recurrence_type = some "WEEKENDS")
    (hcancel : s.cancelled_instances = [])
    (hsat : dSat.weekday = 5) (hwed : dWed.weekday = 2) :
    s.should_air_on_date dSat = true ∧ s.should_air_on_date dWed = false := by
  constructor <;> simp [Show.should_air_on_date, hrec, ht, hcancel, hsat, hwed]

/-- C3 witness: the recurring weekend show on 2025-10-11 (Saturday) and
2025-10-08 (Wednesday). -/
theorem weekend_show_airs_saturday_not_wednesday_witness :
    demoWeekendShow.is_recurring = true ∧
    demoWeekendShow.recurrence_type = some "WEEKENDS" ∧
    demoWeekendShow.cancelled_instances = [] ∧
    demoSaturday.weekday = 5 ∧ demoWednesday.weekday = 2 ∧
    (demoWeekendShow.should_air_on_date demoSaturday = true ∧
     demoWeekendShow.should_air_on_date demoWednesday = false) :=
  ⟨rfl, rfl, rfl, by decide, by decide,
    weekend_show_airs_saturday_not_wednesday demoWeekendShow demoSaturday demoWednesday
      rfl rfl rfl (by decide) (by decide)⟩

/-- C10: a non-recurring show never airs, and a recurring show whose
`recurrence_type` is none of the four recognised values (e.g. unset)
never airs either. -/
theorem unrecognised_recurrence_never_airs (s : Show) (d : Date)
    (h : s.is_recurring = false ∨
      s.recurrence_type ∉
        [some "DAILY", some "WEEKDAYS", some "WEEKENDS", some "SPECIFIC_DAY"]) :
    s.should_air_on_date d = false := by
  rcases h with h | h
  · simp [Show.should_air_on_date, h]
  · simp only [List.mem_cons, List.mem_singleton, List.not_mem_nil, not_or] at h
    obtain ⟨h1, h2, h3, h4⟩ := h
    unfold Show.should_air_on_date
    cases hr : s.is_recurring <;> simp [h1, h2, h3, h4]

/-- C10 witness: the non-recurring daily show does not air on
2025-10-11, and neither does a recurring show with `recurrence_type`
unset. -/
theorem unrecognised_recurrence_never_airs_witness :
    (demoDormantDaily.is_recurring = false ∨
      demoDormantDaily.recurrence_type ∉
        [some "DAILY", some "WEEKDAYS", some "WEEKENDS", some "SPECIFIC_DAY"]) ∧
    demoDormantDaily.should_air_on_date demoSaturday = false :=
  ⟨Or.inl rfl, unrecognised_recurrence_never_airs demoDormantDaily demoSaturday (Or.inl rfl)⟩

/-! ## Theorems: notification fan-out -/

/-- C4: persisting a comment whose `parent` is set creates no
notification; persisting a new top-level comment whose author is not
the target's owner creates exactly the one `comment` notification with
the owner as recipient, the commenter as actor, and the comment's
target reference. -/
theorem comment_notification_rule (created : Bool) (c : Comment)
    (obj : ContentObject) (owner : Nat) :
    (c.parent.isSome = true → create_comment_notification created c obj = none) ∧
    (created = true → c.parent = none → get_content_owner obj = some owner →
      c.user ≠ owner →
      create_comment_notification created c obj =
        some ⟨owner, c.user, "comment", some c.content_type, some c.object_id⟩) := by
  constructor
  · intro hp
    cases created <;> simp [create_comment_notification]
    cases ho : get_content_owner obj <;> simp [hp]
  · intro hcr hp ho hu
    subst hcr
    simp [create_comment_notification, ho, hu, hp]

/-- C4 witness: the reply by user 3 yields no notification; the
top-level comment by user 3 on user 7's content yields the single
`comment` notification. -/
theorem comment_notification_rule_witness :
    create_comment_notification true demoReply demoOwnedObj = none ∧
    create_comment_notification true demoTopComment demoOwnedObj =
      some ⟨7, 3, "comment", some 1, some 9⟩ :=
  ⟨(comment_notification_rule true demoReply demoOwnedObj 7).1 rfl,
   (comment_notification_rule true demoTopComment demoOwnedObj 7).2 rfl rfl rfl
     (by decide)⟩

/-- C5: after a new like is persisted, the owner is the first
non-`None` of `creator`, `author`, `organizer`; no notification when no
owner is found or the liker is the owner; otherwise exactly the one
`like` notification with the owner as recipient, the liker as actor,
and the like's target reference. -/
theorem like_notification_rule (l : Like) (obj : ContentObject) (owner : Nat) :
    (obj.creator ≠ none → get_content_owner obj = obj.creator) ∧
    (obj.creator = none → obj.author ≠ none → get_content_owner obj = obj.author) ∧
    (obj.creator = none → obj.author = none →
      get_content_owner obj = obj.organizer) ∧
    (get_content_owner obj = none → create_like_notification true l obj = none) ∧
    (get_content_owner obj = some l.user →
      create_like_notification true l obj = none) ∧
    (get_content_owner obj = some owner → l.user ≠ owner →
      create_like_notification true l obj =
        some ⟨owner, l.user, "like", some l.content_type, some l.object_id⟩) := by
  obtain ⟨cr, au, org⟩ := obj
  refine ⟨?_, ?_, ?_, ?_, ?_, ?_⟩
  · intro h
    cases cr <;> simp_all [get_content_owner]
  · intro h1 h2
    subst h1
    cases au <;> simp_all [get_content_owner]
  · intro h1 h2
    subst h1
    subst h2
    simp [get_content_owner]
  · intro h
    simp [create_like_notification, h]
  · intro h
    simp [create_like_notification, h]
  · intro h hne
    simp [create_like_notification, h, hne]

/-- C5 witness: liking user 7's content as user 3 yields the single
`like` notification to user 7. -/
theorem like_notification_rule_witness :
    get_content_owner demoOwnedObj = demoOwnedObj.creator ∧
    create_like_notification true demoLike demoOwnedObj =
      some ⟨7, 3, "like", some 1, some 9⟩ :=
  ⟨(like_notification_rule demoLike demoOwnedObj 7).1 (by decide),
   (like_notification_rule demoLike demoOwnedObj 7).2.2.2.2.2 (by decide) (by decide)⟩

/-! ## Theorems: the Like toggle -/

/-- The predicate `likeMatches u ct oid` holds exactly for the row
`⟨u, ct, oid⟩`. -/
theorem likeMatches_iff (u ct oid : Nat) (l : Like) :
    likeMatches u ct oid l = true ↔ l = ⟨u, ct, oid⟩ := by
  obtain ⟨a, b, c⟩ := l
  simp [likeMatches]
  tauto

/-- C6: toggling a like twice returns the store to its original state
(as a multiset of rows): starting with no row for the pair, the first
call creates one (`"liked"`) and the second deletes it (`"unliked"`);
starting with one row, the first call deletes it and the second
recreates a row for the same pair.  The `countP` bound is the database
uniqueness constraint on `(user, content_type, object_id)`. -/
theorem like_double_toggle (likes : List Like) (u ct oid : Nat)
    (hct : ct ≠ 0) (hoid : oid ≠ 0)
    (huniq : likes.countP (likeMatches u ct oid) ≤ 1) :
    ((toggle_like (toggle_like likes u ct oid).1 u ct oid).1).Perm likes ∧
    (likes.countP (likeMatches u ct oid) = 0 →
      (toggle_like likes u ct oid).2 = "liked" ∧
      (toggle_like likes u ct oid).1.countP (likeMatches u ct oid) = 1 ∧
      (toggle_like (toggle_like likes u ct oid).1 u ct oid).2 = "unliked") ∧
    (likes.countP (likeMatches u ct oid) = 1 →
      (toggle_like likes u ct oid).2 = "unliked" ∧
      (toggle_like likes u ct oid).1.countP (likeMatches u ct oid) = 0 ∧
      (toggle_like (toggle_like likes u ct oid).1 u ct oid).2 = "liked" ∧
      (toggle_like (toggle_like likes u ct oid).1 u ct oid).1.countP
        (likeMatches u ct oid) = 1) := by
  have hguard : ¬ (ct = 0 ∨ oid = 0) := by tauto
  have hx : likeMatches u ct oid ⟨u, ct, oid⟩ = true := by simp [likeMatches]
  by_cases hex : likes.any (likeMatches u ct oid) = true
  · obtain ⟨a, ha, hpa⟩ := List.any_eq_true.1 hex
    have hpos : 0 < likes.countP (likeMatches u ct oid) :=
      List.countP_pos_iff.2 ⟨a, ha, hpa⟩
    have hcount : likes.countP (likeMatches u ct oid) = 1 :=
      Nat.le_antisymm huniq hpos
    obtain ⟨b, l₁, l₂, hnl₁, hpb, hsplit, herase⟩ := List.exists_of_eraseP ha hpa
    have hb : b = ⟨u, ct, oid⟩ := (likeMatches_iff u ct oid b).1 hpb
    subst hb
    have hcl₁ : l₁.countP (likeMatches u ct oid) = 0 := List.countP_eq_zero.2 hnl₁
    have hcl₂ : l₂.countP (likeMatches u ct oid) = 0 := by
      have h2 : likes.countP (likeMatches u ct oid) =
          l₁.countP (likeMatches u ct oid) +
            (l₂.countP (likeMatches u ct oid) + 1) := by
        rw [hsplit, List.countP_append, List.countP_cons, hx]
        simp
      rw [hcl₁] at h2
      omega
    have herase0 : (l₁ ++ l₂).countP (likeMatches u ct oid) = 0 := by
      simp [List.countP_append, hcl₁, hcl₂]
    have herase_any : (l₁ ++ l₂).any (likeMatches u ct oid) = false := by
      rw [List.any_eq_false]
      intro x hxmem
      exact List.countP_eq_zero.1 herase0 x hxmem
    have ht1 : toggle_like likes u ct oid =
        (likes.eraseP (likeMatches u ct oid), "unliked") := by
      simp [toggle_like, hguard, hex]
    have ht2 : toggle_like (l₁ ++ l₂) u ct oid =
        ((l₁ ++ l₂) ++ [⟨u, ct, oid⟩], "liked") := by
      simp [toggle_like, hguard, herase_any]
    refine ⟨?_, ?_, ?_⟩
    · simp only [ht1, herase, ht2]
      rw [hsplit]
      exact (List.perm_append_singleton _ _).trans List.perm_middle.symm
    · intro h0
      rw [hcount] at h0
      exact (Nat.one_ne_zero h0).elim
    · intro _
      refine ⟨by rw [ht1], ?_, ?_, ?_⟩
      · simp only [ht1, herase]
        exact herase0
      · simp only [ht1, herase, ht2]
      · simp only [ht1, herase, ht2]
        simp [List.countP_append, hcl₁, hcl₂, List.countP_cons, hx]
  · have hall : ∀ b ∈ likes, ¬ likeMatches u ct oid b = true := by
      intro b hb hpb
      exact hex (List.any_eq_true.2 ⟨b, hb, hpb⟩)
    have hcnt0 : likes.countP (likeMatches u ct oid) = 0 :=
      List.countP_eq_zero.2 hall
    have hexf : likes.any (likeMatches u ct oid) = false :=
      Bool.eq_false_iff.2 hex
    have ht1 : toggle_like likes u ct oid =
        (likes ++ [Like.mk u ct oid], "liked") := by
      simp [toggle_like, hguard, hexf]
    have ht2 : toggle_like (likes ++ [Like.mk u ct oid]) u ct oid =
        ((likes ++ [Like.mk u ct oid]).eraseP (likeMatches u ct oid),
          "unliked") := by
      simp [toggle_like, hguard, hexf, hx]
    have herase : (likes ++ [Like.mk u ct oid]).eraseP (likeMatches u ct oid) =
        likes := by
      rw [List.eraseP_append_right _ hall]
      simp [List.eraseP_cons, hx]
    refine ⟨?_, ?_, ?_⟩
    · simp only [ht1, ht2, herase]
      exact List.Perm.refl likes
    · intro _
      refine ⟨by rw [ht1], ?_, by simp only [ht1, ht2]⟩
      simp only [ht1]
      simp [List.countP_append, hcnt0, List.countP_cons, hx]
    · intro h1
      rw [hcnt0] at h1
      exact (Nat.zero_ne_one h1).elim

/-- C6 witness: user 3 toggling target `(1, 9)` twice on a store that
starts with one unrelated row. -/
theorem like_double_toggle_witness :
    (1 : Nat) ≠ 0 ∧ (9 : Nat) ≠ 0 ∧
    [Like.mk 4 1 9].countP (likeMatches 3 1 9) ≤ 1 ∧
    (((toggle_like (toggle_like [Like.mk 4 1 9] 3 1 9).1 3 1 9).1).Perm
        [Like.mk 4 1 9] ∧
      ([Like.mk 4 1 9].countP (likeMatches 3 1 9) = 0 →
        (toggle_like [Like.mk 4 1 9] 3 1 9).2 = "liked" ∧
        (toggle_like [Like.mk 4 1 9] 3 1 9).1.countP (likeMatches 3 1 9) = 1 ∧
        (toggle_like (toggle_like [Like.mk 4 1 9] 3 1 9).1 3 1 9).2 = "unliked") ∧
      ([Like.mk 4 1 9].countP (likeMatches 3 1 9) = 1 →
        (toggle_like [Like.mk 4 1 9] 3 1 9).2 = "unliked" ∧
        (toggle_like [Like.mk 4 1 9] 3 1 9).1.countP (likeMatches 3 1 9) = 0 ∧
        (toggle_like (toggle_like [Like.mk 4 1 9] 3 1 9).1 3 1 9).2 = "liked" ∧
        (toggle_like (toggle_like [Like.mk 4 1 9] 3 1 9).1 3 1 9).1.countP
          (likeMatches 3 1 9) = 1)) :=
  ⟨by decide, by decide, by decide,
    like_double_toggle [Like.mk 4 1 9] 3 1 9 (by decide) (by decide) (by decide)⟩

/-! ## Theorems: the Follow invariant -/

/-- Deleting rows cannot introduce a self-follow. -/
theorem hasSelfFollow_eraseP (rows : List Follow) (p : Follow → Bool)
    (h : hasSelfFollow rows = false) :
    hasSelfFollow (rows.eraseP p) = false := by
  rw [hasSelfFollow, List.any_eq_false] at h ⊢
  intro x hx
  exact h x ((List.eraseP_sublist rows).subset hx)

/-- Appending a non-self row preserves the invariant. -/
theorem hasSelfFollow_append (rows : List Follow) (f g : Nat)
    (hfg : f ≠ g) (h : hasSelfFollow rows = false) :
    hasSelfFollow (rows ++ [Follow.mk f g]) = false := by
  rw [hasSelfFollow, List.any_eq_false] at h ⊢
  intro x hx
  rcases List.mem_append.1 hx with hx | hx
  · exact h x hx
  · rw [List.mem_singleton] at hx
    subst hx
    simp [hfg]

/-- Every single Follow-store write preserves the no-self-follow
invariant: `Follow.save` raises before storing a self-follow and the
toggle's id check rejects one with a 400. -/
theorem applyFollowOp_no_self (rows : List Follow) (op : FollowOp)
    (h : hasSelfFollow rows = false) :
    hasSelfFollow (applyFollowOp rows op) = false := by
  cases op with
  | create f g =>
    unfold applyFollowOp Follow.save
    by_cases hfg : f = g
    · simp [hfg, h]
    · simp [hfg]
      exact hasSelfFollow_append rows f g hfg h
  | toggle u v =>
    unfold applyFollowOp toggle_follow
    by_cases h0 : v = 0
    · simp [h0, h]
    · by_cases huv : v = u
      · simp [h0, huv, h]
      · simp only [h0, huv, if_false]
        cases hany : rows.any (followMatches u v)
        · have hvu : u ≠ v := fun hh => huv hh.symm
          unfold Follow.save
          simp [hvu]
          exact hasSelfFollow_append rows u v hvu h
        · simp
          exact hasSelfFollow_eraseP rows _ h
  | remove f =>
    exact hasSelfFollow_eraseP rows _ h

/-- C7: in every Follow store reachable from the empty table through
the API's write operations (direct create, toggle, delete), no
persisted row follows itself. -/
theorem follow_store_never_self (ops : List FollowOp) :
    hasSelfFollow (runFollowOps ops) = false := by
  rw [runFollowOps]
  have main : ∀ rows, hasSelfFollow rows = false →
      hasSelfFollow (ops.foldl applyFollowOp rows) = false := by
    induction ops with
    | nil =>
      intro rows hrows
      simpa using hrows
    | cons op rest ih =>
      intro rows hrows
      rw [List.foldl_cons]
      exact ih _ (applyFollowOp_no_self rows op hrows)
  exact main [] rfl

/-! ## Theorems: wallet setup -/

/-- C8: when some stored user already carries the wallet address,
`complete_setup` answers 400 and the user store is unchanged — no user
is created by the failed second attempt. -/
theorem duplicate_wallet_setup_rejected (users : List UserRow)
    (wallet : String) (username : Option String) (uuidHex : String)
    (h : users.any (fun u => u.stacks_address == some wallet) = true) :
    complete_setup users wallet username uuidHex = (users, 400) := by
  unfold complete_setup
  simp [h]

/-- C8 witness: completing setup for wallet `SPABCDEF12` on an empty
store creates the user (201); running it again returns 400 and the
store is unchanged. -/
theorem duplicate_wallet_setup_rejected_witness :
    complete_setup [] "SPABCDEF12" none "c0ffee99" =
      ([UserRow.mk "user_SPABCDEF" (some "SPABCDEF12")], 201) ∧
    [UserRow.mk "user_SPABCDEF" (some "SPABCDEF12")].any
        (fun u => u.stacks_address == some "SPABCDEF12") = true ∧
    complete_setup [UserRow.mk "user_SPABCDEF" (some "SPABCDEF12")]
        "SPABCDEF12" none "c0ffee99" =
      ([UserRow.mk "user_SPABCDEF" (some "SPABCDEF12")], 400) :=
  ⟨by decide, by decide,
    duplicate_wallet_setup_rejected _ _ _ _ (by decide)⟩

/-! ## Theorems: guest requests -/

/-- C9: accepting a pending guest request as the show's creator answers
200, stores the request with status `accepted`, places the requester in
the show's guest list, and appends exactly one `guest_accepted`
notification addressed to the requester. -/
theorem accept_pending_guest_request (st : GuestState) (pk userId : Nat)
    (req : GuestRequest) (sh : ShowGuests)
    (hreq : st.requests.find? (fun r => r.id == pk) = some req)
    (hpending : req.status = "pending")
    (hsh : st.shows.find? (fun s => s.showId == req.showId) = some sh)
    (hown : sh.creator = userId) :
    (accept_guest_request st pk userId).2 = 200 ∧
    { req with status := "accepted" } ∈
      (accept_guest_request st pk userId).1.requests ∧
    (∃ s ∈ (accept_guest_request st pk userId).1.shows,
        s.showId = sh.showId ∧ req.requester ∈ s.guests) ∧
    (accept_guest_request st pk userId).1.notifications =
      st.notifications ++
        [⟨req.requester, userId, "guest_accepted",
           some req.id, some req.showId⟩] := by
  have hp : (req.id == pk) = true := by
    simpa using List.find?_some hreq
  have hqmem : req ∈ st.requests := List.mem_of_find?_eq_some hreq
  have hshmem : sh ∈ st.shows := List.mem_of_find?_eq_some hsh
  unfold accept_guest_request
  split
  · next heq =>
    rw [heq] at hreq
    exact absurd hreq (by simp)
  · next req' heq =>
    rw [heq] at hreq
    injection hreq with hreq'
    subst hreq'
    split
    · next heq2 =>
      rw [heq2] at hsh
      exact absurd hsh (by simp)
    · next sh' heq2 =>
      rw [heq2] at hsh
      injection hsh with hsh'
      subst hsh'
      rw [if_neg (by simp [hown])]
      refine ⟨rfl, ?_, ?_, rfl⟩
      · have himg := List.mem_map_of_mem
          (fun r => if r.id == pk then { r with status := "accepted" } else r)
          hqmem
        simpa [hp] using himg
      · have himg := List.mem_map_of_mem
          (fun s => if s.showId == sh'.showId then
              { s with guests :=
                  if req'.requester ∈ s.guests then s.guests
                  else s.guests ++ [req'.requester] }
            else s) hshmem
        simp only [beq_self_eq_true, if_true] at himg
        refine ⟨_, himg, rfl, ?_⟩
        by_cases hg : req'.requester ∈ sh'.guests
        · simp [hg]
        · simp [hg]

/-- C9 witness: user 7 accepts pending request 5 by user 3 on show 10. -/
theorem accept_pending_guest_request_witness :
    demoGuestState.requests.find? (fun r => r.id == 5) = some demoGuestReq ∧
    demoGuestReq.status = "pending" ∧
    demoGuestState.shows.find? (fun s => s.showId == demoGuestReq.showId) =
      some demoGuestShow ∧
    demoGuestShow.creator = 7 ∧
    ((accept_guest_request demoGuestState 5 7).2 = 200 ∧
     { demoGuestReq with status := "accepted" } ∈
       (accept_guest_request demoGuestState 5 7).1.requests ∧
     (∃ s ∈ (accept_guest_request demoGuestState 5 7).1.shows,
        s.showId = demoGuestShow.showId ∧ demoGuestReq.requester ∈ s.guests) ∧
     (accept_guest_request demoGuestState 5 7).1.notifications =
       demoGuestState.notifications ++
         [⟨demoGuestReq.requester, 7, "guest_accepted",
            some demoGuestReq.id, some demoGuestReq.showId⟩]) :=
  ⟨by decide, rfl, by decide, rfl,
    accept_pending_guest_request demoGuestState 5 7 demoGuestReq demoGuestShow
      (by decide) rfl (by decide) rfl⟩

end DeOrganized
